import Mathlib

/-!
Shallow embedding of the infrastructure-declaration program
(entrypoint `infrastructure/__main__.py` and its component modules
`util/lb.py`, `util/ecs_ec2.py`, `util/rds.py`, plus `config.py`).

The program builds a graph of cloud resource declarations through a
provisioning framework.  Each Python resource-constructor call is embedded
as a Lean structure value recording the declared arguments; each component
class (`LoadBalancer`, `Cluster`, `Task`, `Service`, `RDS`) becomes a
structure holding its declared sub-resources, built by an `init` function
that mirrors the corresponding `__init__` line by line.

Provider-resolved outputs (such as a security group id referenced by a
rule, or a load balancer ARN referenced by a listener) are unresolved
promises in the source; they are embedded as references carrying the
declared resource name of the referenced resource.  External lookups
(`aws.route53.get_zone`, `aws.acm.get_certificate`,
`aws.get_availability_zones`) are external collaborators; their results are
passed in as parameters.  Python object allocation is modelled by a serial
number `oid`: each sub-resource constructed after component creation
receives a fresh serial, embedding Python object identity and registration
order.  The word `prefix` of the source is abbreviated `pfx` in Lean names.
-/

namespace Infra

/-- An `aws.ec2.SecurityGroupIngressArgs` value (inline rule of a security
group, as used by the RDS component). -/
structure SecurityGroupIngressArgs where
  from_port : Int
  to_port : Int
  protocol : String
  security_groups : List String
  deriving Repr, DecidableEq

/-- An `aws.ec2.SecurityGroup` declaration.  The load balancer and cluster
components declare the group without inline rules; the RDS component passes
inline ingress arguments, embedded by `ingress`. -/
structure SecurityGroup where
  resourceName : String
  vpc_id : String
  description : String := ""
  ingress : List SecurityGroupIngressArgs := []
  deriving Repr, DecidableEq

/-- An `aws.ec2.SecurityGroupRule` declaration (standalone rule resource,
as used by the load balancer and cluster components).
`source_security_group_ref` embeds the optional `source_security_group_id`
argument of the provider API; the source never passes it, leaving `none`. -/
structure SecurityGroupRule where
  resourceName : String
  type : String
  from_port : Int
  to_port : Int
  protocol : String
  cidr_blocks : List String
  ipv6_cidr_blocks : List String
  source_security_group_ref : Option String := none
  security_group_ref : String
  deriving Repr, DecidableEq

/-- An `aws.lb.LoadBalancer` declaration. -/
structure ALB where
  resourceName : String
  name : String
  internal : Bool
  load_balancer_type : String
  security_groups : List String
  subnets : List String
  idle_timeout : Nat
  deriving Repr, DecidableEq

/-- An `aws.route53.RecordAliasArgs` value; `name` and `zone_id` reference
the unresolved outputs `alb.dns_name` and `alb.zone_id` of the declared
load balancer, embedded as references through its resource name. -/
structure RecordAliasArgs where
  name_ref : String
  zone_id_ref : String
  evaluate_target_health : Bool
  deriving Repr, DecidableEq

/-- An `aws.route53.Record` declaration. -/
structure DnsRecord where
  oid : Nat
  resourceName : String
  zone_id : String
  name : String
  type : String
  aliases : List RecordAliasArgs
  deriving Repr, DecidableEq

/-- An `aws.lb.TargetGroup` declaration. -/
structure TargetGroup where
  oid : Nat
  resourceName : String
  port : Nat
  protocol : String
  vpc_ref : String
  health_check_path : String
  target_type : String
  deriving Repr, DecidableEq

/-- An `aws.lb.Listener` declaration; `default_action_target_group_ref`
embeds the forward action referencing `target_group.arn`, and
`certificate_ref` the ARN returned by the certificate lookup. -/
structure Listener where
  oid : Nat
  resourceName : String
  load_balancer_ref : String
  port : Nat
  protocol : String
  ssl_policy : String
  default_action_type : String
  default_action_target_group_ref : String
  certificate_ref : String
  deriving Repr, DecidableEq

/-- The `LoadBalancer` component of `util/lb.py`: the component resource,
its security group with one ingress and one egress rule, the application
load balancer, and the four post-construction collections.  `nextOid` is
the allocation serial for sub-resources created by the methods below. -/
structure LoadBalancer where
  resource_name_pfx : String
  component_name : String
  records : List DnsRecord
  target_groups : List TargetGroup
  target_group_attachments : List Nat
  listeners : List Listener
  security_group : SecurityGroup
  sg_ingress : SecurityGroupRule
  sg_egress : SecurityGroupRule
  alb : ALB
  nextOid : Nat
  deriving Repr, DecidableEq

/-- `LoadBalancer.__init__` (`util/lb.py`): creates the security group
(ingress 443 from anywhere, egress 80 to anywhere) and the application
load balancer, and initialises the four empty collections. -/
def LoadBalancer.init (resource_name_pfx0 : String) (vpc_id : String)
    (subnet_ids : List String) : LoadBalancer :=
  let pfx := resource_name_pfx0 ++ "-lb"
  let security_group : SecurityGroup :=
    { resourceName := pfx ++ "-sg"
      vpc_id := vpc_id
      description := "Inbound: Any HTTPS. Outbound: Any HTTP." }
  let alb_name := pfx ++ "-alb"
  { resource_name_pfx := pfx
    component_name := pfx
    records := []
    target_groups := []
    target_group_attachments := []
    listeners := []
    security_group := security_group
    sg_ingress :=
      { resourceName := pfx ++ "-sg-ingress"
        type := "ingress"
        from_port := 443
        to_port := 443
        protocol := "tcp"
        cidr_blocks := ["0.0.0.0/0"]
        ipv6_cidr_blocks := ["::/0"]
        security_group_ref := security_group.resourceName }
    sg_egress :=
      { resourceName := pfx ++ "-sg-engress"
        type := "egress"
        from_port := 80
        to_port := 80
        protocol := "tcp"
        cidr_blocks := ["0.0.0.0/0"]
        ipv6_cidr_blocks := ["::/0"]
        security_group_ref := security_group.resourceName }
    alb :=
      { resourceName := alb_name
        name := alb_name
        internal := false
        load_balancer_type := "application"
        security_groups := [security_group.resourceName]
        subnets := subnet_ids
        idle_timeout := 600 }
    nextOid := 0 }

/-- `LoadBalancer.add_dns_record` (`util/lb.py`): looks up the hosted zone
for the domain (external lookup, its resulting zone id passed in as
`hosted_zone_id`) and appends an alias record pointing at the balancer. -/
def LoadBalancer.add_dns_record (lb : LoadBalancer) (domain_name : String)
    (hosted_zone_id : String) : LoadBalancer :=
  let record : DnsRecord :=
    { oid := lb.nextOid
      resourceName := lb.resource_name_pfx ++ "-alb-record"
      zone_id := hosted_zone_id
      name := domain_name
      type := "A"
      aliases := [{ name_ref := lb.alb.resourceName
                    zone_id_ref := lb.alb.resourceName
                    evaluate_target_health := true }] }
  { lb with records := lb.records ++ [record], nextOid := lb.nextOid + 1 }

/-- `LoadBalancer.add_target_group` (`util/lb.py`): creates an IP-targeted
group on port 80 whose health check polls the given path, appends it to
`target_groups` and returns it. -/
def LoadBalancer.add_target_group (lb : LoadBalancer)
    (health_check_path : String) : TargetGroup × LoadBalancer :=
  let target_group : TargetGroup :=
    { oid := lb.nextOid
      resourceName := lb.resource_name_pfx ++ "-tg"
      port := 80
      protocol := "HTTP"
      vpc_ref := lb.alb.resourceName
      health_check_path := health_check_path
      target_type := "ip" }
  (target_group,
   { lb with target_groups := lb.target_groups ++ [target_group],
             nextOid := lb.nextOid + 1 })

/-- `LoadBalancer.add_listener` (`util/lb.py`): looks up the certificate
for the domain (external lookup, its ARN passed in as `certificate_arn`)
and creates an HTTPS listener on 443 forwarding to the target group,
appending it to `listeners` and returning it. -/
def LoadBalancer.add_listener (lb : LoadBalancer)
    (certificate_domain : String) (certificate_arn : String)
    (target_group : TargetGroup) : Listener × LoadBalancer :=
  let listener : Listener :=
    { oid := lb.nextOid
      resourceName := lb.resource_name_pfx ++ "-listener"
      load_balancer_ref := lb.alb.resourceName
      port := 443
      protocol := "HTTPS"
      ssl_policy := "ELBSecurityPolicy-2016-08"
      default_action_type := "forward"
      default_action_target_group_ref := target_group.resourceName
      certificate_ref := certificate_arn }
  (listener,
   { lb with listeners := lb.listeners ++ [listener],
             nextOid := lb.nextOid + 1 })

/-- Declared resource names of a `LoadBalancer` component: the component
resource itself, its security group and two rules, the balancer, and every
sub-resource added by the three methods. -/
def LoadBalancer.resourceNames (lb : LoadBalancer) : List String :=
  [lb.component_name, lb.security_group.resourceName,
   lb.sg_ingress.resourceName, lb.sg_egress.resourceName,
   lb.alb.resourceName]
  ++ lb.records.map (fun r => r.resourceName)
  ++ lb.target_groups.map (fun t => t.resourceName)
  ++ lb.listeners.map (fun l => l.resourceName)

/-! Configuration records of `config.py`.  Each Python dataclass becomes a
structure whose default field values are the dataclass defaults.  The
module-level instances are built from `pulumi_config.get_object(key,
default=\x7b\x7d)`, a mapping whose present keys override the defaults;
that mapping is embedded for `rds` as `RDSOverrides` (a field is `none`
when the key is absent).  Python `int` and `float` capacity values are
embedded as `Rat`. -/

/-- The `ECSConfig` dataclass of `config.py` with its defaults. -/
structure ECSConfig where
  desired_task_count : Int := 1
  max_instance_count : Int := 1
  min_instance_count : Int := 0
  container_name : String := "container-main"
  cluster_name : String := "cluster-main"
  task_family_name : String := "task-main"
  deriving Repr, DecidableEq

/-- The `LBConfig` dataclass of `config.py`; `domain_name` has no
default. -/
structure LBConfig where
  domain_name : String
  health_check_path : String := "/"
  deriving Repr, DecidableEq

/-- The `EC2Config` dataclass of `config.py` with its defaults. -/
structure EC2Config where
  ami_id : String := "ami-0bae8df33460eefaa"
  instance_type : String := "t4g.small"
  template_name : String := "template-main"
  key_name : Option String := none
  deriving Repr, DecidableEq

/-- The `RDSConfig` dataclass of `config.py` with its defaults. -/
structure RDSConfig where
  engine_version : String := "8.0.mysql_aurora.3.03.1"
  max_capacity : Rat := 1
  min_capacity : Rat := 1 / 2
  cluster_identifier : String := "inductor-cloud"
  database_name : String := "inductor"
  engine : String := "aurora-mysql"
  engine_type : String := "mysql"
  engine_mode : String := "provisioned"
  master_username : String := "inductor"
  master_password : String := "inductor"
  instance_class : String := "db.serverless"
  port : Int := 3306
  deriving Repr, DecidableEq

/-- The mapping returned by `pulumi_config.get_object("rds",
default=\x7b\x7d)`: each field is `some v` when the configuration source
supplies the key, `none` when it is absent.  The empty mapping (the
default when no override is supplied) is `\x7b\x7d`, all fields `none`. -/
structure RDSOverrides where
  engine_version : Option String := none
  max_capacity : Option Rat := none
  min_capacity : Option Rat := none
  cluster_identifier : Option String := none
  database_name : Option String := none
  engine : Option String := none
  engine_type : Option String := none
  engine_mode : Option String := none
  master_username : Option String := none
  master_password : Option String := none
  instance_class : Option String := none
  port : Option Int := none
  deriving Repr, DecidableEq

/-- `RDSConfig(**pulumi_config.get_object("rds", default=\x7b\x7d))` of
`config.py`: keyword arguments present in the mapping override the
dataclass defaults. -/
def RDSConfig.ofObject (o : RDSOverrides) : RDSConfig :=
  { engine_version := o.engine_version.getD "8.0.mysql_aurora.3.03.1"
    max_capacity := o.max_capacity.getD 1
    min_capacity := o.min_capacity.getD (1 / 2)
    cluster_identifier := o.cluster_identifier.getD "inductor-cloud"
    database_name := o.database_name.getD "inductor"
    engine := o.engine.getD "aurora-mysql"
    engine_type := o.engine_type.getD "mysql"
    engine_mode := o.engine_mode.getD "provisioned"
    master_username := o.master_username.getD "inductor"
    master_password := o.master_password.getD "inductor"
    instance_class := o.instance_class.getD "db.serverless"
    port := o.port.getD 3306 }

/-! The `Cluster` component of `util/ecs_ec2.py`. -/

/-- The assume-role policy document passed as `json.dumps(...)` to
`aws.iam.Role`: version, and its single statement (sid, effect, the
principal service, and the action). -/
structure AssumeRolePolicy where
  version : String
  sid : String
  effect : String
  principal_service : String
  action : String
  deriving Repr, DecidableEq

/-- An `aws.iam.Role` declaration. -/
structure IamRole where
  resourceName : String
  assume_role_policy : AssumeRolePolicy
  deriving Repr, DecidableEq

/-- An `aws.iam.RolePolicyAttachment` declaration; `role_ref` references
the role resource through its declared name. -/
structure RolePolicyAttachment where
  resourceName : String
  role_ref : String
  policy_arn : String
  deriving Repr, DecidableEq

/-- An `aws.iam.InstanceProfile` declaration. -/
structure InstanceProfile where
  resourceName : String
  role_ref : String
  deriving Repr, DecidableEq

/-- An `aws.ec2.LaunchTemplateNetworkInterfaceArgs` value. -/
structure LaunchTemplateNetworkInterfaceArgs where
  associate_public_ip_address : Bool
  security_groups : List String
  deriving Repr, DecidableEq

/-- An `aws.ec2.LaunchTemplate` declaration.  `user_data_script` is the
dedented user-data script before the base64 encoding the source applies
(the encoding is a pure re-presentation of the same bytes and no claim
concerns it). -/
structure LaunchTemplate where
  resourceName : String
  iam_instance_profile_ref : String
  network_interfaces : List LaunchTemplateNetworkInterfaceArgs
  image_id : String
  instance_type : String
  key_name : Option String
  name : String
  user_data_script : String
  deriving Repr, DecidableEq

/-- An `aws.autoscaling.GroupLaunchTemplateArgs` value. -/
structure GroupLaunchTemplateArgs where
  id_ref : String
  version : String
  deriving Repr, DecidableEq

/-- An `aws.autoscaling.Group` declaration. -/
structure AutoscalingGroup where
  resourceName : String
  desired_capacity : Int
  min_size : Int
  max_size : Int
  vpc_zone_identifiers : List String
  launch_template : GroupLaunchTemplateArgs
  protect_from_scale_in : Bool
  deriving Repr, DecidableEq

/-- An `aws.ecs.Cluster` declaration. -/
structure EcsCluster where
  resourceName : String
  name : String
  deriving Repr, DecidableEq

/-- An `aws.ecs.CapacityProviderAutoScalingGroupProviderManagedScalingArgs`
value. -/
structure ManagedScalingArgs where
  maximum_scaling_step_size : Nat
  minimum_scaling_step_size : Nat
  status : String
  target_capacity : Nat
  deriving Repr, DecidableEq

/-- An `aws.ecs.CapacityProvider` declaration. -/
structure CapacityProvider where
  resourceName : String
  auto_scaling_group_ref : String
  managed_termination_protection : String
  managed_scaling : ManagedScalingArgs
  deriving Repr, DecidableEq

/-- An `aws.ecs.ClusterCapacityProvidersDefaultCapacityProviderStrategyArgs`
value; `capacity_provider_ref` references the capacity provider through its
declared resource name (the source passes its unresolved `name` output). -/
structure CapacityProviderStrategyArgs where
  base : Nat
  weight : Nat
  capacity_provider_ref : String
  deriving Repr, DecidableEq

/-- An `aws.ecs.ClusterCapacityProviders` declaration. -/
structure ClusterCapacityProviders where
  resourceName : String
  cluster_name_ref : String
  capacity_providers : List String
  default_capacity_provider_strategies : List CapacityProviderStrategyArgs
  deriving Repr, DecidableEq

/-- The `Cluster` component of `util/ecs_ec2.py`: the component resource
and every sub-resource its `__init__` declares. -/
structure Cluster where
  resource_name_pfx : String
  component_name : String
  security_group : SecurityGroup
  sg_ingress : SecurityGroupRule
  sg_egress : SecurityGroupRule
  ecs_instance_role : IamRole
  ecs_instance_role_policy_attach : RolePolicyAttachment
  ecs_instance_profile : InstanceProfile
  launch_template : LaunchTemplate
  autoscaling_group : AutoscalingGroup
  cluster : EcsCluster
  capacity_provider : CapacityProvider
  cluster_capacity_providers : ClusterCapacityProviders
  deriving Repr, DecidableEq

/-- `Cluster.__init__` (`util/ecs_ec2.py`), line by line: security group
with an ingress rule for port 80 from `0.0.0.0/0` and `::/0` and an
unrestricted egress rule, IAM role, policy attachment and instance
profile, launch template, auto-scaling group, ECS cluster, capacity
provider, and the cluster capacity-provider association. -/
def Cluster.init (resource_name_pfx0 : String) (vpc_id : String)
    (cluster_name : String) (ec2_config : EC2Config)
    (max_instance_count : Int) (min_instance_count : Int)
    (subnet_ids : List String) : Cluster :=
  let pfx := resource_name_pfx0 ++ "-ecs-cluster"
  let security_group : SecurityGroup :=
    { resourceName := pfx ++ "-sg"
      vpc_id := vpc_id
      description := "Inbound: HTTP from LB. Outbound: Any." }
  let ecs_instance_role : IamRole :=
    { resourceName := pfx ++ "ecs-instance-role"
      assume_role_policy :=
        { version := "2012-10-17"
          sid := ""
          effect := "Allow"
          principal_service := "ec2.amazonaws.com"
          action := "sts:AssumeRole" } }
  let ecs_instance_profile : InstanceProfile :=
    { resourceName := pfx ++ "ecs-iam-instance-profile"
      role_ref := ecs_instance_role.resourceName }
  let launch_template : LaunchTemplate :=
    { resourceName := pfx ++ "launch-template"
      iam_instance_profile_ref := ecs_instance_profile.resourceName
      network_interfaces :=
        [{ associate_public_ip_address := true
           security_groups := [security_group.resourceName] }]
      image_id := ec2_config.ami_id
      instance_type := ec2_config.instance_type
      key_name := ec2_config.key_name
      name := ec2_config.template_name
      user_data_script :=
        "\n#!/bin/bash\necho ECS_CLUSTER=" ++ cluster_name
          ++ " >> /etc/ecs/ecs.config\n" }
  let autoscaling_group : AutoscalingGroup :=
    { resourceName := pfx ++ "autoscaling_group"
      desired_capacity := 0
      min_size := min_instance_count
      max_size := max_instance_count
      vpc_zone_identifiers := subnet_ids
      launch_template :=
        { id_ref := launch_template.resourceName, version := "$Latest" }
      protect_from_scale_in := true }
  let cluster : EcsCluster :=
    { resourceName := pfx ++ "cluster", name := cluster_name }
  let capacity_provider : CapacityProvider :=
    { resourceName := pfx ++ "capacity-provider"
      auto_scaling_group_ref := autoscaling_group.resourceName
      managed_termination_protection := "ENABLED"
      managed_scaling :=
        { maximum_scaling_step_size := 1000
          minimum_scaling_step_size := 1
          status := "ENABLED"
          target_capacity := 10 } }
  { resource_name_pfx := pfx
    component_name := pfx
    security_group := security_group
    sg_ingress :=
      { resourceName := pfx ++ "-sg-ingress"
        type := "ingress"
        from_port := 80
        to_port := 80
        protocol := "tcp"
        cidr_blocks := ["0.0.0.0/0"]
        ipv6_cidr_blocks := ["::/0"]
        security_group_ref := security_group.resourceName }
    sg_egress :=
      { resourceName := pfx ++ "-sg-engress"
        type := "egress"
        from_port := 0
        to_port := 0
        protocol := "-1"
        cidr_blocks := ["0.0.0.0/0"]
        ipv6_cidr_blocks := ["::/0"]
        security_group_ref := security_group.resourceName }
    ecs_instance_role := ecs_instance_role
    ecs_instance_role_policy_attach :=
      { resourceName := pfx ++ "ecs-instance-policy-attach"
        role_ref := ecs_instance_role.resourceName
        policy_arn := "arn:aws:iam::aws:policy/service-role/AmazonEC2ContainerServiceforEC2Role" }
    ecs_instance_profile := ecs_instance_profile
    launch_template := launch_template
    autoscaling_group := autoscaling_group
    cluster := cluster
    capacity_provider := capacity_provider
    cluster_capacity_providers :=
      { resourceName := pfx ++ "cluster-capacity-provider"
        cluster_name_ref := cluster.resourceName
        capacity_providers := [capacity_provider.resourceName]
        default_capacity_provider_strategies :=
          [{ base := 1
             weight := 100
             capacity_provider_ref := capacity_provider.resourceName }] } }

/-- Declared resource names of a `Cluster` component. -/
def Cluster.resourceNames (c : Cluster) : List String :=
  [c.component_name, c.security_group.resourceName,
   c.sg_ingress.resourceName, c.sg_egress.resourceName,
   c.ecs_instance_role.resourceName,
   c.ecs_instance_role_policy_attach.resourceName,
   c.ecs_instance_profile.resourceName,
   c.launch_template.resourceName,
   c.autoscaling_group.resourceName,
   c.cluster.resourceName,
   c.capacity_provider.resourceName,
   c.cluster_capacity_providers.resourceName]

/-! The `Task` and `Service` components of `util/ecs_ec2.py`. -/

/-- A container port mapping of the task definition. -/
structure PortMapping where
  containerPort : Nat
  hostPort : Nat
  protocol : String
  deriving Repr, DecidableEq

/-- A container definition of the task definition (`name`, `image`,
`portMappings`). -/
structure ContainerDefinition where
  name : String
  image : String
  portMappings : List PortMapping
  deriving Repr, DecidableEq

/-- An `aws.ecs.TaskDefinition` declaration. -/
structure TaskDefinition where
  resourceName : String
  family : String
  cpu : String
  memory : String
  network_mode : String
  requires_compatibilities : List String
  execution_role_ref : String
  container_definitions : List ContainerDefinition
  deriving Repr, DecidableEq

/-- The `Task` component of `util/ecs_ec2.py`. -/
structure Task where
  resource_name_pfx : String
  component_name : String
  task_execution_role : IamRole
  task_execution_role_policy_attach : RolePolicyAttachment
  task_definition : TaskDefinition
  deriving Repr, DecidableEq

/-- `Task.__init__` (`util/ecs_ec2.py`): execution role, policy
attachment, and the task definition with one container mapping port 80 to
port 80 over TCP. -/
def Task.init (resource_name_pfx0 : String) (family_name : String)
    (container_name : String) (container_image : String) : Task :=
  let pfx := resource_name_pfx0 ++ "-ecs-task"
  let task_execution_role : IamRole :=
    { resourceName := pfx ++ "task-execution-role"
      assume_role_policy :=
        { version := "2012-10-17"
          sid := ""
          effect := "Allow"
          principal_service := "ecs-tasks.amazonaws.com"
          action := "sts:AssumeRole" } }
  { resource_name_pfx := pfx
    component_name := pfx
    task_execution_role := task_execution_role
    task_execution_role_policy_attach :=
      { resourceName := pfx ++ "task-excution-policy-attach"
        role_ref := task_execution_role.resourceName
        policy_arn := "arn:aws:iam::aws:policy/service-role/AmazonECSTaskExecutionRolePolicy" }
    task_definition :=
      { resourceName := pfx ++ "-task-definition"
        family := family_name
        cpu := "256"
        memory := "512"
        network_mode := "awsvpc"
        requires_compatibilities := ["EC2"]
        execution_role_ref := task_execution_role.resourceName
        container_definitions :=
          [{ name := container_name
             image := container_image
             portMappings :=
               [{ containerPort := 80, hostPort := 80, protocol := "tcp" }] }] } }

/-- Declared resource names of a `Task` component. -/
def Task.resourceNames (t : Task) : List String :=
  [t.component_name, t.task_execution_role.resourceName,
   t.task_execution_role_policy_attach.resourceName,
   t.task_definition.resourceName]

/-- An `aws.ecs.ServiceNetworkConfigurationArgs` value. -/
structure ServiceNetworkConfigurationArgs where
  assign_public_ip : Bool
  subnets : List String
  security_groups : List String
  deriving Repr, DecidableEq

/-- An `aws.ecs.ServiceLoadBalancerArgs` value. -/
structure ServiceLoadBalancerArgs where
  target_group_arn : String
  container_name : String
  container_port : Nat
  deriving Repr, DecidableEq

/-- An `aws.ecs.Service` declaration. -/
structure EcsService where
  resourceName : String
  cluster_ref : String
  launch_type : String
  desired_count : Int
  task_definition_ref : String
  network_configuration : ServiceNetworkConfigurationArgs
  load_balancers : List ServiceLoadBalancerArgs
  deriving Repr, DecidableEq

/-- The `Service` component of `util/ecs_ec2.py`. -/
structure Service where
  resource_name_pfx : String
  component_name : String
  service : EcsService
  deriving Repr, DecidableEq

/-- `Service.__init__` (`util/ecs_ec2.py`): declares the ECS service bound
to the given cluster, task definition and target group. -/
def Service.init (resource_name_pfx0 : String) (cluster_arn : String)
    (task_definition_arn : String) (target_group_arn : String)
    (security_group_ids : List String) (container_name : String)
    (subnet_ids : List String) (desired_task_count : Int) : Service :=
  let pfx := resource_name_pfx0 ++ "-ecs-service"
  { resource_name_pfx := pfx
    component_name := pfx
    service :=
      { resourceName := pfx ++ "-service"
        cluster_ref := cluster_arn
        launch_type := "EC2"
        desired_count := desired_task_count
        task_definition_ref := task_definition_arn
        network_configuration :=
          { assign_public_ip := false
            subnets := subnet_ids
            security_groups := security_group_ids }
        load_balancers :=
          [{ target_group_arn := target_group_arn
             container_name := container_name
             container_port := 80 }] } }

/-- Declared resource names of a `Service` component. -/
def Service.resourceNames (s : Service) : List String :=
  [s.component_name, s.service.resourceName]

/-! The `RDS` component of `util/rds.py`. -/

/-- An `aws.rds.SubnetGroup` declaration. -/
structure RdsSubnetGroup where
  resourceName : String
  subnet_ids : List String
  tag_name : String
  deriving Repr, DecidableEq

/-- An `aws.rds.Cluster` declaration. -/
structure RdsCluster where
  resourceName : String
  cluster_identifier : String
  database_name : String
  master_username : String
  master_password : String
  engine : String
  engine_mode : String
  engine_version : String
  serverlessv2_max_capacity : Rat
  serverlessv2_min_capacity : Rat
  db_subnet_group_ref : String
  vpc_security_group_ids : List String
  skip_final_snapshot : Bool
  deriving Repr, DecidableEq

/-- An `aws.rds.ClusterInstance` declaration; `engine` and
`engine_version` are passed as the outputs `self.cluster.engine` and
`self.cluster.engine_version`, which resolve to the values the cluster
was declared with. -/
structure RdsClusterInstance where
  resourceName : String
  cluster_ref : String
  identifier : String
  instance_class : String
  engine : String
  engine_version : String
  deriving Repr, DecidableEq

/-- The `RDS` component of `util/rds.py`.  Note that its `__init__`
registers the component resource under the bare `resource_name_prefix`
argument (not under `self.resource_name_prefix`), so `component_name`
carries no `-rds` suffix. -/
structure RDS where
  resource_name_pfx : String
  component_name : String
  security_group : SecurityGroup
  subnet_group : RdsSubnetGroup
  cluster : RdsCluster
  cluster_instance : RdsClusterInstance
  deriving Repr, DecidableEq

/-- `RDS.__init__` (`util/rds.py`): security group admitting the access
security groups on the configured port, subnet group over the private
subnets, the database cluster (with `skip_final_snapshot=True`), and one
cluster instance. -/
def RDS.init (resource_name_pfx0 : String) (rds_config : RDSConfig)
    (vpc_id : String) (subnet_ids : List String)
    (access_security_groups : List String) : RDS :=
  let pfx := resource_name_pfx0 ++ "-rds"
  let subnet_group : RdsSubnetGroup :=
    { resourceName := pfx ++ "-subnet-group"
      subnet_ids := subnet_ids
      tag_name := pfx ++ "-subnet-group" }
  let security_group : SecurityGroup :=
    { resourceName := pfx ++ "-sg"
      vpc_id := vpc_id
      ingress :=
        [{ from_port := rds_config.port
           to_port := rds_config.port
           protocol := "tcp"
           security_groups := access_security_groups }] }
  let cluster : RdsCluster :=
    { resourceName := pfx ++ "-cluster"
      cluster_identifier := rds_config.cluster_identifier
      database_name := rds_config.database_name
      master_username := rds_config.master_username
      master_password := rds_config.master_password
      engine := rds_config.engine
      engine_mode := rds_config.engine_mode
      engine_version := rds_config.engine_version
      serverlessv2_max_capacity := rds_config.max_capacity
      serverlessv2_min_capacity := rds_config.min_capacity
      db_subnet_group_ref := subnet_group.resourceName
      vpc_security_group_ids := [security_group.resourceName]
      skip_final_snapshot := true }
  { resource_name_pfx := pfx
    component_name := resource_name_pfx0
    security_group := security_group
    subnet_group := subnet_group
    cluster := cluster
    cluster_instance :=
      { resourceName := pfx ++ "-cluster-instance"
        cluster_ref := cluster.resourceName
        identifier := pfx ++ "-cluster-instance"
        instance_class := rds_config.instance_class
        engine := cluster.engine
        engine_version := cluster.engine_version } }

/-- Declared resource names of an `RDS` component. -/
def RDS.resourceNames (r : RDS) : List String :=
  [r.component_name, r.security_group.resourceName,
   r.subnet_group.resourceName, r.cluster.resourceName,
   r.cluster_instance.resourceName]

/-! The entrypoint `infrastructure/__main__.py`. -/

/-- Modelled from the spec: the virtual network produced by
`awsx.ec2.Vpc`.  The `awsx` library is an external collaborator not part
of this repository; per the spec it creates, for the given availability
zone names, a virtual network with one public and one private subnet per
zone.  Subnet and VPC identifiers are provider-assigned and opaque; they
are embedded as strings derived from the resource name and zone so that
one identifier exists per zone. -/
structure Vpc where
  resourceName : String
  availability_zone_names : List String
  vpc_id : String
  public_subnet_ids : List String
  private_subnet_ids : List String
  deriving Repr, DecidableEq

/-- Modelled from the spec: `awsx.ec2.Vpc(name, availability_zone_names=azs,
nat_gateways=...)` — one public and one private subnet identifier per
availability zone. -/
def mkVpc (resourceName : String) (azs : List String) : Vpc :=
  { resourceName := resourceName
    availability_zone_names := azs
    vpc_id := resourceName ++ ".vpc_id"
    public_subnet_ids := azs.map (fun z => resourceName ++ "-public-" ++ z)
    private_subnet_ids := azs.map (fun z => resourceName ++ "-private-" ++ z) }

/-- `__main__.py` lines 13-15: query the currently available zones
(external lookup, its result passed in as `available`) and take the
first `NUMBER_OF_AVAILABILITY_ZONES` of them. -/
def availabilityZoneNames (available : List String) (n : Nat) : List String :=
  available.take n

/-- `__main__.py` lines 13-20, the network stage: the VPC named
`RESOURCE_NAME_PREFIX + "-vpc"` over the selected availability zones. -/
def network (resource_name_pfx0 : String) (available : List String)
    (n : Nat) : Vpc :=
  mkVpc (resource_name_pfx0 ++ "-vpc") (availabilityZoneNames available n)

/-- Results of the external lookups the full wiring performs: the
available zones, the hosted zone id for the configured domain, the
certificate ARN for the configured domain, and the URI of the built
image. -/
structure Env where
  available_zones : List String
  hosted_zone_id : String
  certificate_arn : String
  image_uri : String
  deriving Repr, DecidableEq

/-- The full deployment stack of `__main__.py`.  The stages after the
network (load balancer, ECR repository and image, cluster, task, service,
database) are present in the entrypoint but commented out in the current
configuration; per the spec they are the full wiring of one deployment
stack and are embedded as written. -/
structure Stack where
  vpc : Vpc
  load_balancer : LoadBalancer
  target_group : TargetGroup
  listener : Listener
  repository_name : String
  image_name : String
  cluster : Cluster
  task : Task
  service : Service
  database : RDS
  deriving Repr, DecidableEq

/-- The wiring of `__main__.py` over the configuration records: network,
load balancer plus DNS record, target group and listener, ECR repository
and image, cluster, task, service, database.  ARN-valued outputs passed
between components are embedded as references through the source resource
name. -/
def fullStack (resource_name_pfx0 : String) (env : Env) (n : Nat)
    (ecs_cfg : ECSConfig) (lb_cfg : LBConfig) (ec2_cfg : EC2Config)
    (rds_cfg : RDSConfig) : Stack :=
  let vpc := network resource_name_pfx0 env.available_zones n
  let lb0 := LoadBalancer.init resource_name_pfx0 vpc.vpc_id
    vpc.public_subnet_ids
  let lb1 := lb0.add_dns_record lb_cfg.domain_name env.hosted_zone_id
  let tgLb := lb1.add_target_group lb_cfg.health_check_path
  let liLb := tgLb.2.add_listener lb_cfg.domain_name env.certificate_arn tgLb.1
  let cluster := Cluster.init resource_name_pfx0 vpc.vpc_id
    ecs_cfg.cluster_name ec2_cfg ecs_cfg.max_instance_count
    ecs_cfg.min_instance_count vpc.public_subnet_ids
  let task := Task.init resource_name_pfx0 ecs_cfg.task_family_name
    ecs_cfg.container_name env.image_uri
  let service := Service.init resource_name_pfx0
    cluster.cluster.resourceName task.task_definition.resourceName
    tgLb.1.resourceName [cluster.security_group.resourceName]
    ecs_cfg.container_name vpc.public_subnet_ids ecs_cfg.desired_task_count
  let database := RDS.init resource_name_pfx0 rds_cfg vpc.vpc_id
    vpc.private_subnet_ids [cluster.security_group.resourceName]
  { vpc := vpc
    load_balancer := liLb.2
    target_group := tgLb.1
    listener := liLb.1
    repository_name := resource_name_pfx0 ++ "-repository"
    image_name := resource_name_pfx0 ++ "-image"
    cluster := cluster
    task := task
    service := service
    database := database }

/-- Every resource name declared by this program within one deployment
stack (sub-resources created internally by the external `awsx` library
carry names derived by that library and are outside this program). -/
def Stack.resourceNames (s : Stack) : List String :=
  [s.vpc.resourceName]
  ++ s.load_balancer.resourceNames
  ++ [s.repository_name, s.image_name]
  ++ s.cluster.resourceNames
  ++ s.task.resourceNames
  ++ s.service.resourceNames
  ++ s.database.resourceNames

/-- The component-specific suffixes of every resource name the full stack
declares, in declaration order. -/
def stackSuffixes : List String :=
  ["-vpc",
   "-lb", "-lb-sg", "-lb-sg-ingress", "-lb-sg-engress", "-lb-alb",
   "-lb-alb-record", "-lb-tg", "-lb-listener",
   "-repository", "-image",
   "-ecs-cluster", "-ecs-cluster-sg", "-ecs-cluster-sg-ingress",
   "-ecs-cluster-sg-engress", "-ecs-clusterecs-instance-role",
   "-ecs-clusterecs-instance-policy-attach",
   "-ecs-clusterecs-iam-instance-profile", "-ecs-clusterlaunch-template",
   "-ecs-clusterautoscaling_group", "-ecs-clustercluster",
   "-ecs-clustercapacity-provider", "-ecs-clustercluster-capacity-provider",
   "-ecs-task", "-ecs-tasktask-execution-role",
   "-ecs-tasktask-excution-policy-attach", "-ecs-task-task-definition",
   "-ecs-service", "-ecs-service-service",
   "", "-rds-sg", "-rds-subnet-group", "-rds-cluster",
   "-rds-cluster-instance"]

/-! Helper lemmas about `String.append` used to reason about resource
names built by concatenation with a configurable name pfx. -/

/-- The character data of an appended string. -/
theorem str_data_append (a b : String) : (a ++ b).data = a.data ++ b.data := by
  cases a; cases b; rfl

/-- `String.append` is associative. -/
theorem str_append_assoc (a b c : String) : a ++ b ++ c = a ++ (b ++ c) := by
  cases a; cases b; cases c
  show String.mk _ = String.mk _
  simp [String.append, List.append_assoc]

/-- Appending the empty string on the right is the identity. -/
theorem str_append_empty (a : String) : a ++ "" = a := by
  cases a
  show String.mk _ = String.mk _
  simp [String.append]

/-- Appending on the left of a fixed string is injective. -/
theorem str_append_left_inj (p : String) :
    Function.Injective (fun s : String => p ++ s) := by
  intro a b h
  have hd : (p ++ a).data = (p ++ b).data := congrArg String.data h
  rw [str_data_append, str_data_append] at hd
  have hab : a.data = b.data := List.append_cancel_left hd
  cases a; cases b
  exact congrArg String.mk hab

/-- The names of the full stack are exactly the configured name pfx
concatenated with the component-specific suffixes, in declaration
order. -/
theorem stack_resourceNames_eq (resource_name_pfx0 : String) (env : Env)
    (n : Nat) (ecs_cfg : ECSConfig) (lb_cfg : LBConfig)
    (ec2_cfg : EC2Config) (rds_cfg : RDSConfig) :
    (fullStack resource_name_pfx0 env n ecs_cfg lb_cfg ec2_cfg
        rds_cfg).resourceNames
      = stackSuffixes.map (fun s => resource_name_pfx0 ++ s) := by
  simp only [fullStack, Stack.resourceNames, LoadBalancer.resourceNames,
    Cluster.resourceNames, Task.resourceNames, Service.resourceNames,
    RDS.resourceNames, LoadBalancer.init, LoadBalancer.add_dns_record,
    LoadBalancer.add_target_group, LoadBalancer.add_listener, Cluster.init,
    Task.init, Service.init, RDS.init, network, mkVpc,
    availabilityZoneNames, stackSuffixes, List.map, List.cons_append,
    List.nil_append, List.append_assoc, str_append_assoc, str_append_empty]
  rfl

/-- C1: for every construction of the compute cluster component, the
ingress rule of its security group admits port 80 from `0.0.0.0/0` and
`::/0` with no source security group restriction, while the security
group description declares the opposite intent (inbound HTTP from the
load balancer only).  This refutes the claim that the allowed source is
the load balancer security group: the rule is world-open. -/
theorem cluster_ingress_open_to_world (resource_name_pfx0 : String)
    (vpc_id : String) (cluster_name : String) (ec2_cfg : EC2Config)
    (max_instance_count : Int) (min_instance_count : Int)
    (subnet_ids : List String) :
    let c := Cluster.init resource_name_pfx0 vpc_id cluster_name ec2_cfg
      max_instance_count min_instance_count subnet_ids
    c.sg_ingress.type = "ingress" ∧
    c.sg_ingress.from_port = 80 ∧
    c.sg_ingress.to_port = 80 ∧
    c.sg_ingress.cidr_blocks = ["0.0.0.0/0"] ∧
    c.sg_ingress.ipv6_cidr_blocks = ["::/0"] ∧
    c.sg_ingress.source_security_group_ref = none ∧
    c.security_group.description = "Inbound: HTTP from LB. Outbound: Any." :=
  ⟨rfl, rfl, rfl, rfl, rfl, rfl, rfl⟩

/-- C2 counterexample: invoking `add_target_group` twice on the same load
balancer component instance declares two resources under the same name
(the component name pfx followed by `-tg`), so the declared resource
names of that component are not pairwise distinct. -/
theorem repeated_add_target_group_name_collision :
    ¬ (((LoadBalancer.init "ind" "vpc-123" []).add_target_group
          "/").2.add_target_group "/health").2.resourceNames.Nodup := by
  decide

/-- C2 (amended): every resource name declared by the full stack wiring is
the configured resource-name pfx concatenated with a component-specific
suffix (`stackSuffixes`, in declaration order), and — with each of the
load balancer operations invoked once, as in the entrypoint wiring — all
resource names within one deployment stack are pairwise distinct. -/
theorem stack_names_prefixed_and_nodup (resource_name_pfx0 : String)
    (env : Env) (n : Nat) (ecs_cfg : ECSConfig) (lb_cfg : LBConfig)
    (ec2_cfg : EC2Config) (rds_cfg : RDSConfig) :
    (fullStack resource_name_pfx0 env n ecs_cfg lb_cfg ec2_cfg
        rds_cfg).resourceNames
      = stackSuffixes.map (fun s => resource_name_pfx0 ++ s) ∧
    (fullStack resource_name_pfx0 env n ecs_cfg lb_cfg ec2_cfg
        rds_cfg).resourceNames.Nodup := by
  refine ⟨stack_resourceNames_eq resource_name_pfx0 env n ecs_cfg lb_cfg
    ec2_cfg rds_cfg, ?_⟩
  rw [stack_resourceNames_eq]
  exact List.Nodup.map (str_append_left_inj resource_name_pfx0) (by decide)

/-- C3 counterexample: when the provider reports a single available zone
and two zones are requested, the produced network has one public and one
private subnet identifier, not two of each. -/
theorem network_fewer_zones_counterexample :
    ¬ ((network "ind" ["us-east-1a"] 2).public_subnet_ids.length = 2 ∧
       (network "ind" ["us-east-1a"] 2).private_subnet_ids.length = 2) := by
  decide

/-- C3 (amended): the network provisioner takes the first N of the
available zones reported by the provider; when the provider reports at
least N available zones, the produced network has exactly N public and
exactly N private subnet identifiers, one pair per selected zone. -/
theorem network_subnet_counts (resource_name_pfx0 : String)
    (available : List String) (n : Nat) (h : n ≤ available.length) :
    (network resource_name_pfx0 available n).availability_zone_names
      = available.take n ∧
    (network resource_name_pfx0 available n).public_subnet_ids.length = n ∧
    (network resource_name_pfx0 available n).private_subnet_ids.length = n := by
  refine ⟨rfl, ?_, ?_⟩ <;>
    · simp [network, mkVpc, availabilityZoneNames]
      omega

/-- C3 witness: the amended theorem applied at two requested zones with
two available zones. -/
theorem network_subnet_counts_witness :
    2 ≤ (["us-east-1a", "us-east-1b"] : List String).length ∧
    ((network "ind" ["us-east-1a", "us-east-1b"] 2).availability_zone_names
        = (["us-east-1a", "us-east-1b"] : List String).take 2 ∧
     (network "ind" ["us-east-1a", "us-east-1b"] 2).public_subnet_ids.length
        = 2 ∧
     (network "ind" ["us-east-1a", "us-east-1b"] 2).private_subnet_ids.length
        = 2) :=
  ⟨by decide, network_subnet_counts "ind" ["us-east-1a", "us-east-1b"] 2
    (by decide)⟩

/-- C4: for every configuration of instance bounds the capacity provider
declares managed scaling with target capacity 10, minimum step size 1 and
maximum step size 1000. -/
theorem capacity_provider_managed_scaling_constants
    (resource_name_pfx0 : String) (vpc_id : String) (cluster_name : String)
    (ec2_cfg : EC2Config) (max_instance_count : Int)
    (min_instance_count : Int) (subnet_ids : List String) :
    (Cluster.init resource_name_pfx0 vpc_id cluster_name ec2_cfg
        max_instance_count min_instance_count
        subnet_ids).capacity_provider.managed_scaling
      = { maximum_scaling_step_size := 1000
          minimum_scaling_step_size := 1
          status := "ENABLED"
          target_capacity := 10 } :=
  rfl

/-- C5: for every RDS configuration value the generated database cluster
declaration sets `skip_final_snapshot` to true. -/
theorem rds_skip_final_snapshot (resource_name_pfx0 : String)
    (rds_cfg : RDSConfig) (vpc_id : String) (subnet_ids : List String)
    (access_security_groups : List String) :
    (RDS.init resource_name_pfx0 rds_cfg vpc_id subnet_ids
        access_security_groups).cluster.skip_final_snapshot = true :=
  rfl

/-- C6: with no override supplied (the empty configuration object), the
RDS configuration record merged onto the dataclass defaults has engine
`aurora-mysql` and port 3306. -/
theorem rds_defaults_engine_port :
    (RDSConfig.ofObject {}).engine = "aurora-mysql" ∧
    (RDSConfig.ofObject {}).port = 3306 :=
  ⟨rfl, rfl⟩

/-- C7: calling `add_target_group` twice on a freshly constructed load
balancer component appends exactly two entries in call order — the list
then has length 2, its first element is the group returned by the first
call, its second the group returned by the second call — and the two
groups are distinct. -/
theorem add_target_group_twice_appends (resource_name_pfx0 : String)
    (vpc_id : String) (subnet_ids : List String) (p1 p2 : String) :
    (let lb0 := LoadBalancer.init resource_name_pfx0 vpc_id subnet_ids
     let r1 := lb0.add_target_group p1
     let r2 := r1.2.add_target_group p2
     r2.2.target_groups.length = 2 ∧
     r2.2.target_groups = [r1.1, r2.1] ∧
     r1.1 ≠ r2.1) := by
  refine ⟨rfl, rfl, fun h => ?_⟩
  have h0 : (0 : Nat) = 1 := congrArg TargetGroup.oid h
  exact absurd h0 (by decide)

/-- C7 witness: the theorem applied at a concrete component and concrete
health-check paths. -/
theorem add_target_group_twice_appends_witness :
    (let lb0 := LoadBalancer.init "ind" "vpc-123" ["subnet-1"]
     let r1 := lb0.add_target_group "/"
     let r2 := r1.2.add_target_group "/health"
     r2.2.target_groups.length = 2 ∧
     r2.2.target_groups = [r1.1, r2.1] ∧
     r1.1 ≠ r2.1) :=
  add_target_group_twice_appends "ind" "vpc-123" ["subnet-1"] "/" "/health"

/-- C8: for every configured bound the auto-scaling group declaration sets
desired capacity 0, minimum size the configured minimum, maximum size the
configured maximum, and enables scale-in protection. -/
theorem autoscaling_group_sizing (resource_name_pfx0 : String)
    (vpc_id : String) (cluster_name : String) (ec2_cfg : EC2Config)
    (max_instance_count : Int) (min_instance_count : Int)
    (subnet_ids : List String) :
    let g := (Cluster.init resource_name_pfx0 vpc_id cluster_name ec2_cfg
      max_instance_count min_instance_count subnet_ids).autoscaling_group
    g.desired_capacity = 0 ∧
    g.min_size = min_instance_count ∧
    g.max_size = max_instance_count ∧
    g.protect_from_scale_in = true :=
  ⟨rfl, rfl, rfl, rfl⟩

/-- C9: for every construction of the cluster component the launch
template declares exactly one network interface and it sets
`associate_public_ip_address` to true. -/
theorem launch_template_public_ip (resource_name_pfx0 : String)
    (vpc_id : String) (cluster_name : String) (ec2_cfg : EC2Config)
    (max_instance_count : Int) (min_instance_count : Int)
    (subnet_ids : List String) :
    (Cluster.init resource_name_pfx0 vpc_id cluster_name ec2_cfg
        max_instance_count min_instance_count
        subnet_ids).launch_template.network_interfaces.map
        (fun ni => ni.associate_public_ip_address)
      = [true] :=
  rfl

/-- C10: each post-construction operation of the load balancer component
appends exactly one entry to its own collection and leaves the other
three collections, the security group and its rules, and the load
balancer declaration unchanged. -/
theorem lb_frame_effects (lb : LoadBalancer) (domain_name : String)
    (hosted_zone_id : String) (health_check_path : String)
    (certificate_domain : String) (certificate_arn : String)
    (tg : TargetGroup) :
    (let lb1 := lb.add_dns_record domain_name hosted_zone_id
     (∃ r, lb1.records = lb.records ++ [r]) ∧
     lb1.target_groups = lb.target_groups ∧
     lb1.target_group_attachments = lb.target_group_attachments ∧
     lb1.listeners = lb.listeners ∧
     lb1.security_group = lb.security_group ∧
     lb1.sg_ingress = lb.sg_ingress ∧
     lb1.sg_egress = lb.sg_egress ∧
     lb1.alb = lb.alb) ∧
    (let r2 := lb.add_target_group health_check_path
     (∃ t, r2.2.target_groups = lb.target_groups ++ [t]) ∧
     r2.2.records = lb.records ∧
     r2.2.target_group_attachments = lb.target_group_attachments ∧
     r2.2.listeners = lb.listeners ∧
     r2.2.security_group = lb.security_group ∧
     r2.2.sg_ingress = lb.sg_ingress ∧
     r2.2.sg_egress = lb.sg_egress ∧
     r2.2.alb = lb.alb) ∧
    (let r3 := lb.add_listener certificate_domain certificate_arn tg
     (∃ l, r3.2.listeners = lb.listeners ++ [l]) ∧
     r3.2.records = lb.records ∧
     r3.2.target_groups = lb.target_groups ∧
     r3.2.target_group_attachments = lb.target_group_attachments ∧
     r3.2.security_group = lb.security_group ∧
     r3.2.sg_ingress = lb.sg_ingress ∧
     r3.2.sg_egress = lb.sg_egress ∧
     r3.2.alb = lb.alb) :=
  ⟨⟨⟨_, rfl⟩, rfl, rfl, rfl, rfl, rfl, rfl, rfl⟩,
   ⟨⟨_, rfl⟩, rfl, rfl, rfl, rfl, rfl, rfl, rfl⟩,
   ⟨⟨_, rfl⟩, rfl, rfl, rfl, rfl, rfl, rfl, rfl⟩⟩

/-- A concrete load balancer component used by the C10 witness. -/
def lbWitnessInstance : LoadBalancer :=
  LoadBalancer.init "ind" "vpc-123" ["subnet-1", "subnet-2"]

/-- A concrete target group used by the C10 witness. -/
def tgWitnessInstance : TargetGroup :=
  (lbWitnessInstance.add_target_group "/").1

/-- C10 witness: the frame theorem applied at a concrete component,
domain, zone, path, certificate and target group. -/
theorem lb_frame_effects_witness :
    (let lb := lbWitnessInstance
     (let lb1 := lb.add_dns_record "example.com" "Z123"
      (∃ r, lb1.records = lb.records ++ [r]) ∧
      lb1.target_groups = lb.target_groups ∧
      lb1.target_group_attachments = lb.target_group_attachments ∧
      lb1.listeners = lb.listeners ∧
      lb1.security_group = lb.security_group ∧
      lb1.sg_ingress = lb.sg_ingress ∧
      lb1.sg_egress = lb.sg_egress ∧
      lb1.alb = lb.alb) ∧
     (let r2 := lb.add_target_group "/"
      (∃ t, r2.2.target_groups = lb.target_groups ++ [t]) ∧
      r2.2.records = lb.records ∧
      r2.2.target_group_attachments = lb.target_group_attachments ∧
      r2.2.listeners = lb.listeners ∧
      r2.2.security_group = lb.security_group ∧
      r2.2.sg_ingress = lb.sg_ingress ∧
      r2.2.sg_egress = lb.sg_egress ∧
      r2.2.alb = lb.alb) ∧
     (let r3 := lb.add_listener "example.com" "arn:cert-1" tgWitnessInstance
      (∃ l, r3.2.listeners = lb.listeners ++ [l]) ∧
      r3.2.records = lb.records ∧
      r3.2.target_groups = lb.target_groups ∧
      r3.2.target_group_attachments = lb.target_group_attachments ∧
      r3.2.security_group = lb.security_group ∧
      r3.2.sg_ingress = lb.sg_ingress ∧
      r3.2.sg_egress = lb.sg_egress ∧
      r3.2.alb = lb.alb)) :=
  lb_frame_effects lbWitnessInstance "example.com" "Z123" "/"
    "example.com" "arn:cert-1" tgWitnessInstance

end Infra
